import Mathlib

/-!
Verification of the orchestration, registry and correlation layer of the
Outils-Osintt repository (Python) against its natural-language
specification.  Shallow embedding: the relevant Python functions are
translated into executable Lean definitions; Python exceptions become
Except values, Python dicts become association lists with
insert-or-overwrite semantics, and external collaborators (the concrete
collector modules, the AI analyzer, the visualizer, the cryptography
library) become explicit function-valued parameters, since their
behaviour is external input/output from the point of view of the core.
-/

namespace Osint

/-- Python exceptions, as far as the orchestration layer distinguishes
them.  An UnboundLocalError is raised when a local variable is read
before assignment (relevant to ModuleManager in modules/init). -/
inductive PyExn where
  | exn (msg : String)
  | unboundLocal (name : String)
deriving DecidableEq, Repr

/-- Association-list model of a Python dict assignment d[k] = v: if the
key is present its value is replaced in place (insertion order kept),
otherwise the pair is appended.  Mirrors CPython dict semantics. -/
def dinsert {V : Type} : List (String × V) → String → V → List (String × V)
  | [], k, v => [(k, v)]
  | (k0, v0) :: rest, k, v =>
      if k0 = k then (k, v) :: rest else (k0, v0) :: dinsert rest k v

/-- Association-list model of d.get(k) / k in d. -/
def dlookup {V : Type} : List (String × V) → String → Option V
  | [], _ => none
  | (k0, v0) :: rest, k => if k0 = k then some v0 else dlookup rest k

/-- Timestamp of a datetime.now() call, at the granularity the source
observes: calendar fields down to microseconds. -/
structure PyTimestamp where
  year : Nat
  month : Nat
  day : Nat
  hour : Nat
  minute : Nat
  second : Nat
  microsecond : Nat
deriving DecidableEq, Repr

/-- Zero-padding of a (two-digit) numeric strftime field, as the format
directives yield for values below 100. -/
def pad2 (n : Nat) : String := if n < 10 then "0" ++ toString n else toString n

/-- Four-digit zero-padded year as produced by the year directive of
strftime for years below 10000: written as the two-digit pad of the
hundreds part followed by the two-digit pad of the remainder, which is
the same string. -/
def pad4 (n : Nat) : String := pad2 (n / 100) ++ pad2 (n % 100)

/-- The strftime format used by OSINTFramework.investigate, core/main.py
line 59 (year month day underscore hour minute second). -/
def strftimeId (t : PyTimestamp) : String :=
  pad4 t.year ++ pad2 t.month ++ pad2 t.day ++ "_" ++
    pad2 t.hour ++ pad2 t.minute ++ pad2 t.second

/-- investigation_id = "inv_" followed by the formatted current time,
core/main.py line 59.  Second granularity: the microsecond field of the
call instant is not used. -/
def investigationId (t : PyTimestamp) : String := "inv_" ++ strftimeId t

/-- Truncation of a call instant to whole seconds. -/
def secondTrunc (t : PyTimestamp) : PyTimestamp :=
  ⟨t.year, t.month, t.day, t.hour, t.minute, t.second, 0⟩

/-- A collector module as the orchestrator consumes it: an investigate
coroutine taking the target value and a depth and either returning a
result payload or raising.  The concrete payload content is out of
scope (per-collector scraping), modelled as a string. -/
structure Module where
  investigate : String → Nat → Except PyExn String

/-- The results dict assembled by OSINTFramework.investigate,
core/main.py lines 62-70, with the keys the orchestrator writes.
Option models presence of a key that is only ever written by a
conditional stage (cross_platform by tier 2, ai_analysis by tier 3). -/
structure Results where
  investigation_id : String
  target_type : String
  target_value : String
  timestamp : PyTimestamp
  modules : List (String × String)
  correlations : List (String × String)
  risk_assessment : Option String
  cross_platform : Option (List (String × String))
  ai_analysis : Option String
  visualization : Option String
deriving DecidableEq, Repr

/-- Environment of OSINTFramework.investigate: the modules dict built by
_load_modules (keys phone, email, instagram, twitter, telegram, shodan,
darkweb, bitcoin in the source; behaviour of each instance is external),
plus the AI analyzer and visualizer collaborators it awaits, each a
coroutine over the in-progress results dict. -/
structure Env where
  modules : List (String × Module)
  aiAnalyze : Results → Except PyExn String
  riskAssess : Results → Except PyExn String
  visualize : Results → Except PyExn String

/-- OSINTFramework._extract_identifiers, core/main.py lines 112-124: the
four identifier kinds are initialized to empty lists and the body of
the extraction is an elided comment, so the function returns the empty
lists unconditionally.  The results argument is ignored. -/
def extractIdentifiers {A : Type} (_results : A) : List (String × List String) :=
  [("usernames", []), ("emails", []), ("phones", []), ("domains", [])]

/-- OSINTFramework._find_correlations, core/main.py lines 126-130: the
correlations dict is initialized empty, the algorithm body is an elided
comment, and the empty dict is returned unconditionally. -/
def findCorrelations {V : Type} (_data : List (String × V)) : List (String × V) := []

/-- The cross-platform fan-out schedule of _cross_platform_search,
core/main.py lines 99-104: for every identifier kind, for the first
five values of that kind, for every module whose name differs from the
target type, one investigate call with depth 1 is issued.  Each entry
is (identifier kind, module name, identifier value), in loop order. -/
def scheduledCalls (identifiers : List (String × List String))
    (moduleNames : List String) (targetType : String) :
    List (String × String × String) :=
  identifiers.flatMap fun kv =>
    (kv.2.take 5).flatMap fun v =>
      (moduleNames.filter (fun m => m ≠ targetType)).map fun m => (kv.1, m, v)

/-- OSINTFramework._cross_platform_search, core/main.py lines 92-110:
runs every scheduled call; a call that returns is recorded in the
cross_results dict under the key module name, underscore, value; a call
that raises is caught, logged as a warning and otherwise discarded (no
slot records it).  Afterwards the cross_platform and correlations keys
of the results dict are written.  The target value argument of the
source function is received but never read. -/
def crossPlatformSearch (env : Env) (targetType : String) (results : Results) :
    Results :=
  let identifiers := extractIdentifiers results
  let cross := (scheduledCalls identifiers (env.modules.map Prod.fst) targetType).foldl
    (fun acc call =>
      match dlookup env.modules call.2.1 with
      | some m =>
          match m.investigate call.2.2 1 with
          | Except.ok r => dinsert acc (call.2.1 ++ "_" ++ call.2.2) r
          | Except.error _ => acc
      | none => acc) []
  { results with cross_platform := some cross, correlations := findCorrelations cross }

/-- The depth-gated tail of OSINTFramework.investigate, core/main.py
lines 77-90, starting from the results dict r1 left by tier 1: tier 2
(line 78) runs when depth is at least 2, tier 3 (lines 82-84, AI
analysis then risk assessment, both awaited without a try block) when
depth is at least 3, and the visualizer (line 87) is awaited
unconditionally at the end. -/
def investigateRest (env : Env) (targetType : String) (depth : Nat)
    (r1 : Results) : Except PyExn Results :=
  let r2 := if 2 ≤ depth then crossPlatformSearch env targetType r1 else r1
  (if 3 ≤ depth then
     (env.aiAnalyze r2).bind fun ai =>
     (env.riskAssess { r2 with ai_analysis := some ai }).bind fun risk =>
     Except.ok { r2 with ai_analysis := some ai, risk_assessment := some risk }
   else Except.ok r2).bind fun r3 =>
  (env.visualize r3).bind fun viz =>
  Except.ok { r3 with visualization := some viz }

/-- OSINTFramework.investigate, core/main.py lines 55-90.  The call
instant now feeds the investigation id (line 59) and the timestamp
field (line 65).  The tier-1 call (line 74) is not wrapped in a try
block, so an exception from the matching module propagates; the
depth-gated remainder of the pipeline is investigateRest. -/
def investigate (env : Env) (targetType targetValue : String) (depth : Nat)
    (now : PyTimestamp) : Except PyExn Results :=
  let r0 : Results :=
    { investigation_id := investigationId now
      target_type := targetType
      target_value := targetValue
      timestamp := now
      modules := []
      correlations := []
      risk_assessment := some ""
      cross_platform := none
      ai_analysis := none
      visualization := none }
  (match dlookup env.modules targetType with
   | some m =>
       match m.investigate targetValue depth with
       | Except.ok mr => Except.ok { r0 with modules := dinsert r0.modules targetType mr }
       | Except.error e => Except.error e
   | none => Except.ok r0).bind (investigateRest env targetType depth)

/-! ModuleManager initialization, modules/init lines 65-130. -/

/-- Which step of _try_initialize_module fails for a given
(module path, class name) pair, as determined by the runtime
environment: the import of the module (raising ImportError), the
getattr for the class (raising AttributeError), the construction of
the instance (raising some Exception), or nothing. -/
inductive InitOutcome where
  | ok
  | importError (msg : String)
  | attrError (msg : String)
  | ctorError (msg : String)
deriving DecidableEq, Repr

/-- State of a ModuleManager together with the module-level
_MODULE_AVAILABILITY registry dict. -/
structure MState where
  modules : List (String × String)
  availability : List (String × Bool)
deriving DecidableEq, Repr

/-- The module key derived at modules/init line 109: the last
dot-separated component of the module path. -/
def moduleKey (modulePath : String) : String :=
  (modulePath.splitOn ".").getLastD ""

/-- ModuleManager._try_initialize_module, modules/init lines 98-130.
The local variable module_key is assigned only at line 109, after
the module import (line 107) and the getattr (line 108) succeed.  The
ImportError and AttributeError handlers (lines 122-127) both read
module_key to record availability, so when the import or the getattr
is what failed they raise UnboundLocalError themselves, and nothing
catches it.  The generic Exception handler (lines 128-130) runs only
for a construction failure, at which point module_key is bound, so it
records availability false and returns normally. -/
def tryInitializeModule (env : String → String → InitOutcome) (st : MState)
    (modulePath className : String) : Except PyExn MState :=
  match env modulePath className with
  | InitOutcome.ok =>
      let key := moduleKey modulePath
      Except.ok ⟨dinsert st.modules key className, dinsert st.availability key true⟩
  | InitOutcome.importError _ => Except.error (PyExn.unboundLocal "module_key")
  | InitOutcome.attrError _ => Except.error (PyExn.unboundLocal "module_key")
  | InitOutcome.ctorError _ =>
      let key := moduleKey modulePath
      Except.ok ⟨st.modules, dinsert st.availability key false⟩

/-- The modules_to_init list of ModuleManager._initialize_modules,
modules/init lines 70-91, verbatim. -/
def modulesToInit : List (String × String) :=
  [("phone_intel", "PhoneIntel"),
   ("email_intel", "EmailIntel"),
   ("social.instagram", "InstagramIntel"),
   ("social.twitter", "TwitterIntel"),
   ("social.telegram", "TelegramIntel"),
   ("social.facebook", "FacebookIntel"),
   ("social.linkedin", "LinkedInIntel"),
   ("web.domain_intel", "DomainIntel"),
   ("web.shodan_intel", "ShodanIntel"),
   ("web.wayback", "WaybackMachine"),
   ("web.darkweb", "DarkWebIntel"),
   ("blockchain.bitcoin", "BitcoinIntel"),
   ("blockchain.ethereum", "EthereumIntel"),
   ("blockchain.crypto_tracker", "CryptoTracker"),
   ("ai.analyzer", "AIAnalyzer"),
   ("ai.image_recognition", "ImageRecognition"),
   ("ai.behavioral", "BehavioralAnalyzer"),
   ("geolocation.wifi_analyzer", "WifiAnalyzer"),
   ("geolocation.geotag", "GeotagAnalyzer"),
   ("geolocation.cell_tower", "CellTowerAnalyzer")]

/-- ModuleManager._initialize_modules, modules/init lines 65-96: calls
_try_initialize_module for every entry of modules_to_init in order,
with no try block of its own, so an exception escaping one step aborts
the whole initialization. -/
def initializeModules (env : String → String → InitOutcome) : Except PyExn MState :=
  modulesToInit.foldlM (fun st pc => tryInitializeModule env st pc.1 pc.2) ⟨[], []⟩

/-! PluginSystem.load_plugins, core/plugin_system.py lines 16-53. -/

/-- What happens when a candidate plugin file is executed and checked:
it exposes a Plugin class that constructs an instance, it lacks a
Plugin class, or executing/constructing it raises. -/
inductive PluginFileOutcome where
  | hasPlugin (instanceTag : String)
  | noPluginClass
  | raises (msg : String)
deriving DecidableEq, Repr

/-- A candidate .py file in the plugins directory: its stem (the plugin
name) and what loading it does. -/
structure PluginFile where
  name : String
  outcome : PluginFileOutcome
deriving DecidableEq, Repr

/-- The per-file result load_plugins logs: loaded successfully, skipped
with a warning for a missing Plugin class, or an error logged for a
raised exception.  No other outcome exists in the source; in
particular there is no name-collision error. -/
inductive LoadOutcome where
  | loaded
  | skippedNoClass
  | loadError
deriving DecidableEq, Repr

/-- PluginSystem.load_plugins, core/plugin_system.py lines 28-53:
iterates over the candidate files; a file exposing a Plugin class has
its instance stored with self.plugins[plugin_name] = plugin_instance
(a plain dict assignment, overwriting any existing entry with that
name); a file without a Plugin class is skipped with a warning; a file
that raises is caught and logged.  Returns the updated plugins dict
together with the per-file outcomes in order. -/
def loadPlugins (files : List PluginFile) (plugins : List (String × String)) :
    List (String × String) × List (String × LoadOutcome) :=
  files.foldl
    (fun acc f =>
      match f.outcome with
      | PluginFileOutcome.hasPlugin inst =>
          (dinsert acc.1 f.name inst, acc.2 ++ [(f.name, LoadOutcome.loaded)])
      | PluginFileOutcome.noPluginClass =>
          (acc.1, acc.2 ++ [(f.name, LoadOutcome.skippedNoClass)])
      | PluginFileOutcome.raises _ =>
          (acc.1, acc.2 ++ [(f.name, LoadOutcome.loadError)]))
    (plugins, [])

/-! Timed semantics for the collector calls the orchestrator awaits,
for the timeout claim.  The orchestrator awaits each call directly
(core/main.py lines 74 and 104) with no timeout combinator anywhere,
and the tier-2 loop awaits its calls one after the other inside
nested for loops, so the semantics is strictly sequential. -/

/-- Behaviour of one awaited collector call: it returns a payload after
some duration, raises after some duration, or never returns. -/
inductive CallBehavior where
  | returns (payload : String) (dur : Nat)
  | raises (msg : String) (dur : Nat)
  | hangs
deriving DecidableEq, Repr

/-- Environment for the timed semantics: the modules dict with each
module's investigate coroutine given timed behaviour. -/
structure TimedEnv where
  modules : List (String × (String → Nat → CallBehavior))

/-- Timed behaviour of one scheduled tier-2 call (kind, module, value):
the behaviour of that module's investigate on the value at depth 1.  A
module name missing from the dict contributes a zero-duration no-op,
matching a schedule entry that finds nothing to call. -/
def timedBehavior (env : TimedEnv) (call : String × String × String) : CallBehavior :=
  match dlookup env.modules call.2.1 with
  | some f => f call.2.2 1
  | none => CallBehavior.returns "" 0

/-- Duration charged by one scheduled call when it does come back. -/
def callDur (env : TimedEnv) (call : String × String × String) : Nat :=
  match timedBehavior env call with
  | CallBehavior.returns _ d => d
  | CallBehavior.raises _ d => d
  | CallBehavior.hangs => 0

/-- Sequential execution of a list of scheduled tier-2 calls, as the
nested loops of _cross_platform_search perform it: each call is
awaited in turn with no timeout; a returned payload is recorded, a
raised exception is caught and discarded, and a call that never
returns makes the whole loop never complete (None).  Accumulates the
cross_results dict and the elapsed time. -/
def runCalls (env : TimedEnv) :
    List (String × String × String) → List (String × String) → Nat →
    Option (List (String × String) × Nat)
  | [], acc, elapsed => some (acc, elapsed)
  | call :: rest, acc, elapsed =>
      match timedBehavior env call with
      | CallBehavior.returns payload d =>
          runCalls env rest (dinsert acc (call.2.1 ++ "_" ++ call.2.2) payload) (elapsed + d)
      | CallBehavior.raises _ d => runCalls env rest acc (elapsed + d)
      | CallBehavior.hangs => none

/-- Timed model of the tier-2 loop of _cross_platform_search over a
given identifiers dict: run the schedule sequentially from an empty
cross_results dict at time zero. -/
def crossTimed (env : TimedEnv) (identifiers : List (String × List String))
    (targetType : String) : Option (List (String × String) × Nat) :=
  runCalls env (scheduledCalls identifiers (env.modules.map Prod.fst) targetType) [] 0

/-- Timed model of the tier-1 step of investigate followed by the
tier-2 loop: the tier-1 call (core/main.py line 74) is awaited with no
timeout, so a hanging matching module means the investigation never
completes (None); a raising matching module aborts it (error); a
module that returns leads into tier 2 when depth is at least 2.
Returns, when the run completes, the per-module dict, the tier-2
cross dict when tier 2 ran, and the total elapsed time. -/
def investigateTimed (env : TimedEnv) (targetType targetValue : String)
    (depth : Nat) :
    Option (Except PyExn (List (String × String) × Option (List (String × String)) × Nat)) :=
  match dlookup env.modules targetType with
  | some f =>
      match f targetValue depth with
      | CallBehavior.hangs => none
      | CallBehavior.raises msg _ => some (Except.error (PyExn.exn msg))
      | CallBehavior.returns payload d =>
          let perModule := [(targetType, payload)]
          if 2 ≤ depth then
            match crossTimed env (extractIdentifiers perModule) targetType with
            | none => none
            | some (cross, d2) => some (Except.ok (perModule, some cross, d + d2))
          else some (Except.ok (perModule, none, d))
  | none =>
      if 2 ≤ depth then
        match crossTimed env (extractIdentifiers ([] : List (String × String))) targetType with
        | none => none
        | some (cross, d2) => some (Except.ok ([], some cross, d2))
      else some (Except.ok ([], none, 0))

/-- The investigation section of ConfigManager._get_default_settings,
core/config_manager.py lines 87-92. -/
structure InvestigationSettings where
  default_depth : Nat
  max_concurrent_requests : Nat
  request_timeout : Nat
  rate_limit_delay : Nat
deriving DecidableEq, Repr

/-- Default investigation settings, core/config_manager.py lines 87-92. -/
def defaultInvestigationSettings : InvestigationSettings :=
  ⟨2, 10, 30, 1⟩

/-! SecurityManager encryption round trip, core/security.py lines 69-75. -/

/-- The external primitives SecurityManager composes, over an abstract
bytes type: the Fernet encrypt and decrypt of the instance's fernet
object (same key for both, created once in the constructor), and the
str.encode / bytes.decode codec.  All four are external library
functions; their contracts are stated as hypotheses where needed. -/
structure SecurityPrims (B : Type) where
  fernetEncrypt : B → B
  fernetDecrypt : B → B
  strEncode : String → B
  bytesDecode : B → String

/-- SecurityManager.encrypt_data, core/security.py lines 69-71:
self.fernet.encrypt(data.encode()). -/
def encryptData {B : Type} (p : SecurityPrims B) (data : String) : B :=
  p.fernetEncrypt (p.strEncode data)

/-- SecurityManager.decrypt_data, core/security.py lines 73-75:
self.fernet.decrypt(encrypted_data).decode(). -/
def decryptData {B : Type} (p : SecurityPrims B) (encrypted : B) : String :=
  p.bytesDecode (p.fernetDecrypt encrypted)

/-! Helper lemmas. -/

/-- Looking up the key just written by a dict assignment yields the
newly written value. -/
theorem dlookup_dinsert_self {V : Type} (ps : List (String × V)) (k : String) (v : V) :
    dlookup (dinsert ps k v) k = some v := by
  induction ps with
  | nil => simp [dinsert, dlookup]
  | cons hd tl ih =>
      by_cases hk : hd.1 = k
      · simp [dinsert, dlookup, hk]
      · simp [dinsert, dlookup, hk, ih]

/-! Claim theorems. -/

/-- Claim C9: the correlation-building operation of the source,
_find_correlations, returns the empty correlation dict on every input
(its algorithm body is elided), so applying it twice yields the same
edge set as applying it once, and any permutation of the input yields
an identical edge set.  The properties hold, though only because the
implementation is a constant function. -/
theorem correlations_idempotent_order_independent :
    (∀ data : List (String × String),
        findCorrelations (findCorrelations data) = findCorrelations data) ∧
    (∀ d1 d2 : List (String × String), d1.Perm d2 →
        findCorrelations d1 = findCorrelations d2) :=
  ⟨fun _ => rfl, fun _ _ _ => rfl⟩

/-- Claim C9 witness: the permutation-invariance half applied to a
concrete shuffled pair of inputs. -/
theorem correlations_idempotent_order_independent_witness :
    findCorrelations [("a_x", "r1"), ("b_y", "r2")] =
      findCorrelations [("b_y", "r2"), ("a_x", "r1")] :=
  correlations_idempotent_order_independent.2 _ _ (by decide)

/-- Claim C10: on one SecurityManager instance (hence one fernet object
and key), decrypt_data after encrypt_data is the identity on strings,
given the documented contracts of the external primitives it composes:
the Fernet round trip over bytes and the str.encode / bytes.decode
round trip. -/
theorem encrypt_decrypt_roundtrip {B : Type} (p : SecurityPrims B)
    (hFernet : ∀ b, p.fernetDecrypt (p.fernetEncrypt b) = b)
    (hCodec : ∀ s, p.bytesDecode (p.strEncode s) = s) (s : String) :
    decryptData p (encryptData p s) = s := by
  unfold decryptData encryptData
  rw [hFernet, hCodec]

/-- Claim C10 witness: the round trip at a concrete primitive
instantiation and a concrete string. -/
theorem encrypt_decrypt_roundtrip_witness :
    decryptData (⟨id, id, id, id⟩ : SecurityPrims String)
        (encryptData (⟨id, id, id, id⟩ : SecurityPrims String) "target data") =
      "target data" :=
  encrypt_decrypt_roundtrip _ (fun _ => rfl) (fun _ => rfl) _

/-- Claim C5 counterexample: loading a plugin whose name is already
registered does not produce any error outcome — the file is reported
loaded — and the first registered instance is not retained: the
registry afterwards maps the name to the second instance. -/
theorem duplicate_name_overwrites_without_error :
    loadPlugins [⟨"geoplugin", PluginFileOutcome.hasPlugin "instanceB"⟩]
        [("geoplugin", "instanceA")] =
      ([("geoplugin", "instanceB")], [("geoplugin", LoadOutcome.loaded)]) ∧
    dlookup (loadPlugins [⟨"geoplugin", PluginFileOutcome.hasPlugin "instanceB"⟩]
        [("geoplugin", "instanceA")]).1 "geoplugin" ≠ some "instanceA" := by
  decide

/-- Claim C5 (amended): registering a collector under a name that is
already present in the registry raises no error — load_plugins records
the file as loaded — and silently overwrites: the registry afterwards
returns the newly registered instance for that name. -/
theorem registration_overwrite_semantics (ps : List (String × String))
    (name old inst : String) (_h : dlookup ps name = some old) :
    loadPlugins [⟨name, PluginFileOutcome.hasPlugin inst⟩] ps =
      (dinsert ps name inst, [(name, LoadOutcome.loaded)]) ∧
    dlookup (dinsert ps name inst) name = some inst :=
  ⟨rfl, dlookup_dinsert_self ps name inst⟩

/-- Claim C5 witness: the overwrite semantics applied to a concrete
registry that already holds the name. -/
theorem registration_overwrite_semantics_witness :
    loadPlugins [⟨"x", PluginFileOutcome.hasPlugin "b"⟩] [("x", "a")] =
      ([("x", "b")], [("x", LoadOutcome.loaded)]) ∧
    dlookup (dinsert [("x", "a")] "x" "b") "x" = some "b" :=
  registration_overwrite_semantics [("x", "a")] "x" "a" "b" (by decide)

/-- Environment for claim C2 in which importing social.facebook fails
(an ImportError, for example because the facebook module file is
absent) and every other initialization step succeeds. -/
def envImportFail : String → String → InitOutcome := fun p _ =>
  if p = "social.facebook" then InitOutcome.importError "module not found"
  else InitOutcome.ok

/-- Claim C2: the claim states the intended discipline (one bad module
never takes down the process) and the handlers of
_try_initialize_module exist to implement exactly that, but the
ImportError and AttributeError handlers read the local module_key
before it has been assigned, so an import failure of a single module
raises UnboundLocalError out of ModuleManager initialization and
aborts it, contradicting the code's own stated intent.  Evaluation at
the failing input: with social.facebook failing to import,
initialization aborts with the unbound-local error instead of
recording the module unavailable and completing. -/
theorem import_failure_crashes_module_init :
    initializeModules envImportFail = Except.error (PyExn.unboundLocal "module_key") := rfl

/-- Membership in the fan-out schedule: a scheduled call carries the
kind of some identifiers entry, a value among the first five of that
entry, and a module name distinct from the target type. -/
theorem mem_scheduledCalls (ids : List (String × List String)) (mods : List String)
    (tt : String) (c : String × String × String) :
    c ∈ scheduledCalls ids mods tt ↔
      ∃ kv ∈ ids, c.1 = kv.1 ∧ c.2.2 ∈ kv.2.take 5 ∧ c.2.1 ∈ mods ∧ c.2.1 ≠ tt := by
  rcases c with ⟨k, m, v⟩
  simp only [scheduledCalls, List.mem_flatMap, List.mem_map, List.mem_filter,
    decide_eq_true_eq, Prod.mk.injEq]
  constructor
  · rintro ⟨kv, hkv, v0, hv0, m0, ⟨hm0, hne⟩, hk, hm, hv⟩
    exact ⟨kv, hkv, hk.symm, by rw [← hv]; exact hv0, by rw [← hm]; exact hm0,
      by rw [← hm]; exact hne⟩
  · rintro ⟨kv, hkv, hk, hv, hm, hne⟩
    exact ⟨kv, hkv, v, hv, m, ⟨hm, hne⟩, hk.symm, rfl, rfl⟩

/-- Claim C6: during the tier-2 fan-out, for every identifier kind at
most five distinct values of that kind are used to schedule
cross-platform investigate calls, even when the identifiers dict holds
more values of that kind (the values list is cut to its first five
elements before the scheduling loops).  The key-uniqueness hypothesis
is the Python dict invariant on the identifiers mapping. -/
theorem fanout_bounded_per_kind (ids : List (String × List String)) (mods : List String)
    (tt kind : String) (values : List String)
    (hnd : (ids.map Prod.fst).Nodup) (hmem : (kind, values) ∈ ids) :
    ((((scheduledCalls ids mods tt).filter (fun c => c.1 = kind)).map
        (fun c => c.2.2)).dedup).length ≤ 5 := by
  set L := ((scheduledCalls ids mods tt).filter (fun c => c.1 = kind)).map
    (fun c => c.2.2) with hL
  have hsub : L.dedup ⊆ values.take 5 := by
    intro x hx
    have hx1 : x ∈ L := (List.mem_dedup.mp hx)
    rw [hL] at hx1
    obtain ⟨c, hc, hcx⟩ := List.mem_map.mp hx1
    obtain ⟨hcs, hck⟩ := List.mem_filter.mp hc
    have hck1 : c.1 = kind := by simpa using hck
    obtain ⟨kv, hkv, hk, hv, _, _⟩ := (mem_scheduledCalls ids mods tt c).mp hcs
    have hkveq : kv = (kind, values) :=
      List.inj_on_of_nodup_map hnd hkv hmem (by rw [← hk, hck1])
    rw [hkveq] at hv
    rw [← hcx]
    exact hv
  have hsp : List.Subperm L.dedup (values.take 5) :=
    (List.nodup_dedup L).subperm hsub
  calc L.dedup.length ≤ (values.take 5).length := hsp.length_le
    _ ≤ 5 := by rw [List.length_take]; omega

/-- Claim C6 witness: the bound applied to a concrete identifiers dict
holding seven usernames. -/
theorem fanout_bounded_per_kind_witness :
    ((((scheduledCalls [("usernames", ["a", "b", "c", "d", "e", "f", "g"])]
        ["phone", "email"] "email").filter (fun c => c.1 = "usernames")).map
        (fun c => c.2.2)).dedup).length ≤ 5 :=
  fanout_bounded_per_kind [("usernames", ["a", "b", "c", "d", "e", "f", "g"])]
    ["phone", "email"] "email" "usernames" ["a", "b", "c", "d", "e", "f", "g"]
    (by decide) (by decide)

/-- Reduction of Except.bind on a success value. -/
theorem except_bind_ok {E A B : Type} (a : A) (f : A → Except E B) :
    (Except.ok a : Except E A).bind f = f a := rfl

/-- Reduction of Except.bind on an exception value. -/
theorem except_bind_error {E A B : Type} (e : E) (f : A → Except E B) :
    (Except.error e : Except E A).bind f = (Except.error e : Except E B) := rfl

/-- The tier-2 step always writes the cross_platform key. -/
theorem crossPlatformSearch_cross (env : Env) (tt : String) (r : Results) :
    (crossPlatformSearch env tt r).cross_platform.isSome = true := rfl

/-- The tier-2 step does not touch the ai_analysis key. -/
theorem crossPlatformSearch_ai (env : Env) (tt : String) (r : Results) :
    (crossPlatformSearch env tt r).ai_analysis = r.ai_analysis := rfl

/-- Pipeline tail specification: starting from a tier-1 results dict
whose conditional keys are still unset, a completed run has written
the cross_platform key exactly when depth is at least 2 and the
ai_analysis key exactly when depth is at least 3. -/
theorem investigateRest_spec (env : Env) (tt : String) (d : Nat) (r1 r : Results)
    (hc : r1.cross_platform = none) (ha : r1.ai_analysis = none)
    (h : investigateRest env tt d r1 = Except.ok r) :
    (r.cross_platform.isSome ↔ 2 ≤ d) ∧ (r.ai_analysis.isSome ↔ 3 ≤ d) := by
  unfold investigateRest at h
  by_cases h2 : 2 ≤ d
  · by_cases h3 : 3 ≤ d
    · simp only [if_pos h2, if_pos h3] at h
      rcases hai : env.aiAnalyze (crossPlatformSearch env tt r1) with e | ai <;>
        rw [hai] at h
      · rw [except_bind_error, except_bind_error] at h
        exact absurd h (by simp)
      · rw [except_bind_ok] at h
        rcases hrk : env.riskAssess
            { crossPlatformSearch env tt r1 with ai_analysis := some ai } with e | rk <;>
          rw [hrk] at h
        · rw [except_bind_error, except_bind_error] at h
          exact absurd h (by simp)
        · rw [except_bind_ok, except_bind_ok] at h
          rcases hv : env.visualize _ with e | viz <;> rw [hv] at h
          · rw [except_bind_error] at h
            exact absurd h (by simp)
          · rw [except_bind_ok] at h
            cases h
            refine ⟨?_, by simp [h3]⟩
            have := crossPlatformSearch_cross env tt r1
            simp only [Results.cross_platform] at this ⊢
            simp [this, h2]
    · simp only [if_pos h2, if_neg h3, except_bind_ok] at h
      rcases hv : env.visualize (crossPlatformSearch env tt r1) with e | viz <;>
        rw [hv] at h
      · rw [except_bind_error] at h
        exact absurd h (by simp)
      · rw [except_bind_ok] at h
        cases h
        constructor
        · have := crossPlatformSearch_cross env tt r1
          simp only [Results.cross_platform] at this ⊢
          simp [this, h2]
        · have := crossPlatformSearch_ai env tt r1
          simp only [Results.ai_analysis] at this ⊢
          simp [this, ha, h3]
  · have h3 : ¬ 3 ≤ d := by omega
    simp only [if_neg h2, if_neg h3, except_bind_ok] at h
    rcases hv : env.visualize r1 with e | viz <;> rw [hv] at h
    · rw [except_bind_error] at h
      exact absurd h (by simp)
    · rw [except_bind_ok] at h
      cases h
      exact ⟨by simp [hc, h2], by simp [ha, h3]⟩

/-- Claim C3: on every completed investigation, the tier-2
cross-platform search ran (its cross_platform key was written) exactly
when the requested depth is at least 2, and the tier-3 AI analysis ran
(its ai_analysis key was written) exactly when the depth is at
least 3; this covers in particular every depth in one, two, three. -/
theorem depth_gates_tiers (env : Env) (tt tv : String) (d : Nat) (now : PyTimestamp)
    (r : Results) (h : investigate env tt tv d now = Except.ok r) :
    (r.cross_platform.isSome ↔ 2 ≤ d) ∧ (r.ai_analysis.isSome ↔ 3 ≤ d) := by
  unfold investigate at h
  rcases hm : dlookup env.modules tt with _ | m <;>
    simp only [hm, except_bind_ok, except_bind_error] at h
  · exact investigateRest_spec env tt d _ r rfl rfl h
  · rcases hmr : m.investigate tv d with e | mr <;>
      simp only [hmr, except_bind_ok, except_bind_error] at h
    · exact absurd h (by simp)
    · exact investigateRest_spec env tt d _ r rfl rfl h

/-- Environment used by the C3 witness: one email collector that
returns data, with all collaborators succeeding. -/
def envGate : Env :=
  ⟨[("email", ⟨fun _ _ => Except.ok "data"⟩)],
    fun _ => Except.ok "ai", fun _ => Except.ok "risk", fun _ => Except.ok "viz"⟩

/-- Instant used by the C3 witness. -/
def tGate : PyTimestamp := ⟨2025, 10, 12, 9, 30, 0, 0⟩

/-- Value of the C3 witness run, as evaluation of investigate yields
it: tier 1 recorded the email result, tier 2 ran and found an empty
cross dict (the extractor yields no identifiers and no other module is
registered), tier 3 did not run at depth 2. -/
def resGate : Results :=
  { investigation_id := investigationId tGate
    target_type := "email"
    target_value := "a@b.com"
    timestamp := tGate
    modules := [("email", "data")]
    correlations := []
    risk_assessment := some ""
    cross_platform := some []
    ai_analysis := none
    visualization := some "viz" }

/-- Claim C3 witness: a concrete completed investigation at depth 2
has its cross_platform key written and its ai_analysis key unwritten. -/
theorem depth_gates_tiers_witness :
    investigate envGate "email" "a@b.com" 2 tGate = Except.ok resGate ∧
      ((resGate.cross_platform.isSome ↔ 2 ≤ 2) ∧ (resGate.ai_analysis.isSome ↔ 3 ≤ 2)) :=
  ⟨rfl, depth_gates_tiers envGate "email" "a@b.com" 2 tGate resGate rfl⟩
/-- Environment for the claim C1 counterexample: the email collector
raises during its investigate call; collaborators would succeed. -/
def envAbort : Env :=
  ⟨[("email", ⟨fun _ _ => Except.error (PyExn.exn "boom")⟩)],
    fun _ => Except.ok "ai", fun _ => Except.ok "risk", fun _ => Except.ok "viz"⟩

/-- Claim C1 counterexample: a failure raised by an individual
collector module can abort the investigation.  With the matching
tier-1 collector raising, investigate propagates the exception instead
of returning a completed result dict; no per-module slot records the
failure and no later pipeline stage runs. -/
theorem tier1_failure_aborts_investigation :
    investigate envAbort "email" "a@b.com" 1 ⟨2025, 10, 12, 9, 30, 0, 0⟩ =
      Except.error (PyExn.exn "boom") := rfl

/-- Claim C1 (amended): only failures raised inside the tier-2
cross-platform fan-out are confined — each one is caught, logged and
discarded (leaving no slot in the results), and the pipeline
continues; a failure raised by the tier-1 matching collector, by
contrast, propagates out of investigate and aborts the investigation.
First half: a raising tier-1 collector yields exactly its exception.
Second half: whenever the tier-1 collector (if any) returns and the
non-collector collaborators return, investigate completes with a
result dict, no matter how many tier-2 collectors raise. -/
theorem collector_failures_confined_to_fanout :
    (∀ (env : Env) (tt tv : String) (d : Nat) (now : PyTimestamp) (m : Module)
        (e : PyExn), dlookup env.modules tt = some m →
        m.investigate tv d = Except.error e →
        investigate env tt tv d now = Except.error e) ∧
    (∀ (env : Env) (tt tv : String) (d : Nat) (now : PyTimestamp),
        (∀ m, dlookup env.modules tt = some m →
            ∃ mr, m.investigate tv d = Except.ok mr) →
        (∀ x, ∃ a, env.aiAnalyze x = Except.ok a) →
        (∀ x, ∃ a, env.riskAssess x = Except.ok a) →
        (∀ x, ∃ a, env.visualize x = Except.ok a) →
        ∃ r, investigate env tt tv d now = Except.ok r) := by
  constructor
  · intro env tt tv d now m e hm hme
    unfold investigate
    simp only [hm, hme, except_bind_error]
  · intro env tt tv d now h1 hai hrk hv
    unfold investigate
    have hrest : ∀ r1 : Results, ∃ r, investigateRest env tt d r1 = Except.ok r := by
      intro r1
      unfold investigateRest
      by_cases h3 : 3 ≤ d
      · obtain ⟨ai, hai1⟩ := hai (if 2 ≤ d then crossPlatformSearch env tt r1 else r1)
        obtain ⟨rk, hrk1⟩ := hrk { (if 2 ≤ d then crossPlatformSearch env tt r1 else r1)
          with ai_analysis := some ai }
        obtain ⟨viz, hv1⟩ := hv { (if 2 ≤ d then crossPlatformSearch env tt r1 else r1)
          with ai_analysis := some ai, risk_assessment := some rk }
        refine ⟨{ (if 2 ≤ d then crossPlatformSearch env tt r1 else r1)
          with ai_analysis := some ai, risk_assessment := some rk,
               visualization := some viz }, ?_⟩
        simp only [if_pos h3, hai1, hrk1, except_bind_ok]
        rw [hv1, except_bind_ok]
      · obtain ⟨viz, hv1⟩ := hv (if 2 ≤ d then crossPlatformSearch env tt r1 else r1)
        refine ⟨{ (if 2 ≤ d then crossPlatformSearch env tt r1 else r1)
          with visualization := some viz }, ?_⟩
        simp only [if_neg h3, except_bind_ok]
        rw [hv1, except_bind_ok]
    rcases hm : dlookup env.modules tt with _ | m
    · obtain ⟨r, hr⟩ := hrest _
      exact ⟨r, by simp only [hm, except_bind_ok]; exact hr⟩
    · obtain ⟨mr, hmr⟩ := h1 m hm
      obtain ⟨r, hr⟩ := hrest _
      exact ⟨r, by simp only [hm, hmr, except_bind_ok]; exact hr⟩

/-- Environment for the claim C1 witness: the email collector returns,
every other collector raises, collaborators return. -/
def envFanoutFail : Env :=
  ⟨[("email", ⟨fun _ _ => Except.ok "data"⟩),
    ("phone", ⟨fun _ _ => Except.error (PyExn.exn "down")⟩),
    ("twitter", ⟨fun _ _ => Except.error (PyExn.exn "down")⟩)],
    fun _ => Except.ok "ai", fun _ => Except.ok "risk", fun _ => Except.ok "viz"⟩

/-- Claim C1 witness: the amended theorem applied to a concrete run in
which every tier-2 collector raises yet the depth-3 investigation
completes with a result. -/
theorem collector_failures_confined_to_fanout_witness :
    ∃ r, investigate envFanoutFail "email" "a@b.com" 3 ⟨2025, 10, 12, 9, 30, 0, 0⟩ =
      Except.ok r :=
  collector_failures_confined_to_fanout.2 envFanoutFail "email" "a@b.com" 3
    ⟨2025, 10, 12, 9, 30, 0, 0⟩
    (fun m hm => ⟨"data", by cases hm; rfl⟩)
    (fun x => ⟨"ai", rfl⟩) (fun x => ⟨"risk", rfl⟩) (fun x => ⟨"viz", rfl⟩)

/-- Environment for the claim C7 counterexample: two registered
collectors, neither matching the target kind domain, collaborators
succeed. -/
def envNoMatch : Env :=
  ⟨[("phone", ⟨fun _ _ => Except.ok "p"⟩), ("email", ⟨fun _ _ => Except.ok "e"⟩)],
    fun _ => Except.ok "ai", fun _ => Except.ok "risk", fun _ => Except.ok "viz"⟩

/-- Claim C7 counterexample: with no collector matching the target
kind domain at depth 2, the per-module results are empty and the
pipeline does proceed, but the target value seeds nothing: the fan-out
schedule derived from the extracted identifiers is empty, no
cross-platform investigate call is scheduled at all (none using the
target value in particular), and the cross dict comes back empty. -/
theorem no_fallback_seed_counterexample :
    (investigate envNoMatch "domain" "example.com" 2 ⟨2025, 10, 12, 9, 30, 0, 0⟩).map
        (fun r => (r.modules, r.cross_platform)) =
      Except.ok ([], some []) ∧
    scheduledCalls (extractIdentifiers "example.com")
        ["phone", "email"] "domain" = [] := ⟨rfl, rfl⟩

/-- Claim C7 (amended): when no registered collector matches the
request's target kind, tier 1 yields an empty per-module result set
and the pipeline still proceeds at depth 2, but the target value does
not seed tier 2: the extractor yields no identifier values, the
fan-out schedule is empty, and the cross-platform dict of the
completed result is empty. -/
theorem unmatched_target_empty_tier1_pipeline_proceeds (env : Env) (tt tv : String)
    (now : PyTimestamp) (hm : dlookup env.modules tt = none)
    (hv : ∀ x, ∃ a, env.visualize x = Except.ok a) :
    (∃ r, investigate env tt tv 2 now = Except.ok r ∧
        r.modules = [] ∧ r.cross_platform = some []) ∧
    (∀ results : Results,
        scheduledCalls (extractIdentifiers results) (env.modules.map Prod.fst) tt = []) := by
  constructor
  · obtain ⟨viz, hv1⟩ := hv (crossPlatformSearch env tt
      { investigation_id := investigationId now
        target_type := tt
        target_value := tv
        timestamp := now
        modules := []
        correlations := []
        risk_assessment := some ""
        cross_platform := none
        ai_analysis := none
        visualization := none })
    refine ⟨{ crossPlatformSearch env tt
      { investigation_id := investigationId now
        target_type := tt
        target_value := tv
        timestamp := now
        modules := []
        correlations := []
        risk_assessment := some ""
        cross_platform := none
        ai_analysis := none
        visualization := none } with visualization := some viz }, ?_, ?_, ?_⟩
    · unfold investigate investigateRest
      simp only [hm, except_bind_ok]
      norm_num
      simp only [except_bind_ok, hv1]
    · simp [crossPlatformSearch]
    · simp only [crossPlatformSearch, extractIdentifiers, scheduledCalls]
      simp
  · intro results
    simp [scheduledCalls, extractIdentifiers]

/-- Claim C7 witness: the amended theorem at the concrete no-match
environment. -/
theorem unmatched_target_empty_tier1_pipeline_proceeds_witness :
    (∃ r, investigate envNoMatch "domain" "example.com" 2 ⟨2025, 10, 12, 9, 30, 0, 0⟩ =
          Except.ok r ∧ r.modules = [] ∧ r.cross_platform = some []) ∧
    (∀ results : Results,
        scheduledCalls (extractIdentifiers results)
          (envNoMatch.modules.map Prod.fst) "domain" = []) :=
  unmatched_target_empty_tier1_pipeline_proceeds envNoMatch "domain" "example.com"
    ⟨2025, 10, 12, 9, 30, 0, 0⟩ rfl (fun _ => ⟨"viz", rfl⟩)

/-- Environment for the claim C8 counterexample: the email collector
never returns; a phone collector would answer quickly. -/
def envHang : TimedEnv :=
  ⟨[("email", fun _ _ => CallBehavior.hangs),
    ("phone", fun _ _ => CallBehavior.returns "ok" 1)]⟩

/-- Claim C8 counterexample: a collector invocation is not bounded by
any timeout.  With the matching collector never returning, the
investigation never completes: no CollectorTimeout outcome is ever
recorded (the model has no such outcome because the source defines
none) and the rest of the pipeline never runs. -/
theorem hanging_collector_blocks_investigation :
    investigateTimed envHang "email" "a@b.com" 2 = none := rfl

/-- Sequential tier-2 execution never completes exactly when some
scheduled call hangs. -/
theorem runCalls_eq_none_iff (env : TimedEnv) (l : List (String × String × String))
    (acc : List (String × String)) (elapsed : Nat) :
    runCalls env l acc elapsed = none ↔
      ∃ c ∈ l, timedBehavior env c = CallBehavior.hangs := by
  induction l generalizing acc elapsed with
  | nil => simp [runCalls]
  | cons c rest ih =>
      cases hb : timedBehavior env c with
      | returns p d =>
          rw [runCalls, hb, ih]
          simp only [List.mem_cons]
          constructor
          · rintro ⟨c0, hc0, hh⟩
            exact ⟨c0, Or.inr hc0, hh⟩
          · rintro ⟨c0, hc0 | hc0, hh⟩
            · subst hc0
              rw [hb] at hh
              exact absurd hh (by simp)
            · exact ⟨c0, hc0, hh⟩
      | raises m d =>
          rw [runCalls, hb, ih]
          simp only [List.mem_cons]
          constructor
          · rintro ⟨c0, hc0, hh⟩
            exact ⟨c0, Or.inr hc0, hh⟩
          · rintro ⟨c0, hc0 | hc0, hh⟩
            · subst hc0
              rw [hb] at hh
              exact absurd hh (by simp)
            · exact ⟨c0, hc0, hh⟩
      | hangs =>
          rw [runCalls, hb]
          exact iff_of_true rfl ⟨c, List.mem_cons_self c rest, hb⟩

/-- When no scheduled call hangs, sequential tier-2 execution
completes after exactly the sum of the call durations, with no cap. -/
theorem runCalls_total (env : TimedEnv) (l : List (String × String × String))
    (acc : List (String × String)) (elapsed : Nat)
    (h : ∀ c ∈ l, timedBehavior env c ≠ CallBehavior.hangs) :
    ∃ res, runCalls env l acc elapsed = some (res, elapsed + (l.map (callDur env)).sum) := by
  induction l generalizing acc elapsed with
  | nil => exact ⟨acc, by simp [runCalls]⟩
  | cons c rest ih =>
      have hrest : ∀ c0 ∈ rest, timedBehavior env c0 ≠ CallBehavior.hangs :=
        fun c0 hc0 => h c0 (List.mem_cons_of_mem c hc0)
      cases hb : timedBehavior env c with
      | returns p d =>
          obtain ⟨res, hres⟩ := ih (dinsert acc (c.2.1 ++ "_" ++ c.2.2) p) (elapsed + d) hrest
          refine ⟨res, ?_⟩
          simp only [runCalls, hb]
          rw [hres]
          have hcd : callDur env c = d := by rw [callDur, hb]
          simp only [List.map_cons, List.sum_cons, hcd, Option.some.injEq, Prod.mk.injEq]
          exact ⟨trivial, by omega⟩
      | raises m d =>
          obtain ⟨res, hres⟩ := ih acc (elapsed + d) hrest
          refine ⟨res, ?_⟩
          simp only [runCalls, hb]
          rw [hres]
          have hcd : callDur env c = d := by rw [callDur, hb]
          simp only [List.map_cons, List.sum_cons, hcd, Option.some.injEq, Prod.mk.injEq]
          exact ⟨trivial, by omega⟩
      | hangs => exact absurd hb (h c (List.mem_cons_self c rest))

/-- Claim C8 (amended): the configuration carries a request timeout
default of 30 seconds but the orchestrator applies no per-call
timeout.  A matching tier-1 collector that never returns makes the
investigation never complete; the sequential tier-2 loop never
completes exactly when one of its scheduled calls never returns (so a
hanging call does delay — forever — every sibling scheduled after
it); and when every call returns or raises, the loop takes the full
sum of all call durations, unbounded by the configured timeout, with
raisers merely logged (no timeout outcome exists). -/
theorem no_timeout_semantics :
    defaultInvestigationSettings.request_timeout = 30 ∧
    (∀ (env : TimedEnv) (tt tv : String) (d : Nat)
        (f : String → Nat → CallBehavior), dlookup env.modules tt = some f →
        f tv d = CallBehavior.hangs → investigateTimed env tt tv d = none) ∧
    (∀ (env : TimedEnv) (ids : List (String × List String)) (tt : String),
        (crossTimed env ids tt = none ↔
          ∃ c ∈ scheduledCalls ids (env.modules.map Prod.fst) tt,
            timedBehavior env c = CallBehavior.hangs)) ∧
    (∀ (env : TimedEnv) (ids : List (String × List String)) (tt : String),
        (∀ c ∈ scheduledCalls ids (env.modules.map Prod.fst) tt,
            timedBehavior env c ≠ CallBehavior.hangs) →
        ∃ res, crossTimed env ids tt =
          some (res, ((scheduledCalls ids (env.modules.map Prod.fst) tt).map
            (callDur env)).sum)) := by
  refine ⟨rfl, ?_, ?_, ?_⟩
  · intro env tt tv d f hm hf
    simp only [investigateTimed, hm, hf]
  · intro env ids tt
    exact runCalls_eq_none_iff env _ [] 0
  · intro env ids tt h
    obtain ⟨res, hres⟩ := runCalls_total env _ [] 0 h
    exact ⟨res, by rw [crossTimed, hres, Nat.zero_add]⟩

/-- Claim C8 witness: the no-timeout semantics applied to a concrete
hanging phone collector. -/
theorem no_timeout_semantics_witness :
    investigateTimed ⟨[("phone", fun _ _ => CallBehavior.hangs)]⟩ "phone" "123" 1 = none :=
  no_timeout_semantics.2.1 ⟨[("phone", fun _ _ => CallBehavior.hangs)]⟩ "phone" "123" 1
    (fun _ _ => CallBehavior.hangs) rfl rfl

/-! Investigation id uniqueness, core/main.py line 59. -/

/-- Bounds under which a call instant's formatted fields occupy their
full fixed widths: the year below 10000 and every other formatted
field below 100 (true of every real datetime value). -/
abbrev ValidTime (t : PyTimestamp) : Prop :=
  t.year < 10000 ∧ t.month < 100 ∧ t.day < 100 ∧
    t.hour < 100 ∧ t.minute < 100 ∧ t.second < 100

/-- A two-digit padded field is always two characters. -/
theorem pad2_data_len : ∀ n < 100, (pad2 n).data.length = 2 := by decide

set_option maxRecDepth 10000 in
set_option maxHeartbeats 4000000 in
/-- Two-digit padding is injective on its in-range domain. -/
theorem pad2_data_inj : ∀ a < 100, ∀ b < 100,
    (pad2 a).data = (pad2 b).data → a = b := by decide

/-- Character data of a string concatenation. -/
theorem str_data_append (s t : String) : (s ++ t).data = s.data ++ t.data :=
  String.data_append s t

/-- Environment for the claim C4 counterexample: one email collector
returning data, collaborators succeed. -/
def envId : Env :=
  ⟨[("email", ⟨fun _ _ => Except.ok "data"⟩)],
    fun _ => Except.ok "ai", fun _ => Except.ok "risk", fun _ => Except.ok "viz"⟩

/-- Claim C4 counterexample: two distinct investigate calls — started
at two distinct instants half a second apart within the same
calendar second — produce the same investigation id, because the id
format has only second granularity. -/
theorem same_second_ids_collide :
    (⟨2025, 10, 12, 9, 30, 15, 0⟩ : PyTimestamp) ≠ ⟨2025, 10, 12, 9, 30, 15, 500000⟩ ∧
    (investigate envId "email" "a@b.com" 1 ⟨2025, 10, 12, 9, 30, 15, 0⟩).map
        Results.investigation_id =
      (investigate envId "email" "a@b.com" 1 ⟨2025, 10, 12, 9, 30, 15, 500000⟩).map
        Results.investigation_id :=
  ⟨by decide, rfl⟩

/-- Claim C4 (amended): the investigation id is the call instant
formatted at second granularity behind a fixed leading marker, so two
investigate calls receive the same id exactly when their start
instants agree once truncated to whole seconds: distinct seconds give
distinct ids, but calls within one second collide. -/
theorem investigation_id_injective_up_to_second (t1 t2 : PyTimestamp)
    (h1 : ValidTime t1) (h2 : ValidTime t2) :
    investigationId t1 = investigationId t2 ↔ secondTrunc t1 = secondTrunc t2 := by
  obtain ⟨hy1, hmo1, hd1, hh1, hmi1, hs1⟩ := h1
  obtain ⟨hy2, hmo2, hd2, hh2, hmi2, hs2⟩ := h2
  constructor
  · intro h
    have hd : (investigationId t1).data = (investigationId t2).data := by rw [h]
    simp only [investigationId, strftimeId, pad4, str_data_append,
      List.append_assoc] at hd
    obtain ⟨-, hstep⟩ := List.append_inj hd rfl
    obtain ⟨hyhi, hstep⟩ := List.append_inj hstep
      ((pad2_data_len _ (by omega)).trans (pad2_data_len _ (by omega)).symm)
    obtain ⟨hylo, hstep⟩ := List.append_inj hstep
      ((pad2_data_len _ (by omega)).trans (pad2_data_len _ (by omega)).symm)
    obtain ⟨hmo, hstep⟩ := List.append_inj hstep
      ((pad2_data_len _ hmo1).trans (pad2_data_len _ hmo2).symm)
    obtain ⟨hda, hstep⟩ := List.append_inj hstep
      ((pad2_data_len _ hd1).trans (pad2_data_len _ hd2).symm)
    obtain ⟨-, hstep⟩ := List.append_inj hstep rfl
    obtain ⟨hho, hstep⟩ := List.append_inj hstep
      ((pad2_data_len _ hh1).trans (pad2_data_len _ hh2).symm)
    obtain ⟨hmi, hse⟩ := List.append_inj hstep
      ((pad2_data_len _ hmi1).trans (pad2_data_len _ hmi2).symm)
    have ey : t1.year = t2.year := by
      have e1 := pad2_data_inj _ (by omega) _ (by omega) hyhi
      have e2 := pad2_data_inj _ (by omega) _ (by omega) hylo
      omega
    have emo : t1.month = t2.month := pad2_data_inj _ hmo1 _ hmo2 hmo
    have eda : t1.day = t2.day := pad2_data_inj _ hd1 _ hd2 hda
    have eho : t1.hour = t2.hour := pad2_data_inj _ hh1 _ hh2 hho
    have emi : t1.minute = t2.minute := pad2_data_inj _ hmi1 _ hmi2 hmi
    have ese : t1.second = t2.second := pad2_data_inj _ hs1 _ hs2 hse
    simp only [secondTrunc, ey, emo, eda, eho, emi, ese]
  · intro h
    simp only [secondTrunc] at h
    injection h with ey emo eda eho emi ese _
    simp only [investigationId, strftimeId, pad4, ey, emo, eda, eho, emi, ese]

/-- Claim C4 witness: calls one second apart receive distinct ids, by
the amended characterization at concrete instants. -/
theorem investigation_id_injective_up_to_second_witness :
    investigationId ⟨2025, 1, 1, 0, 0, 1, 0⟩ ≠ investigationId ⟨2025, 1, 1, 0, 0, 2, 0⟩ := by
  intro h
  have hiff := (investigation_id_injective_up_to_second
    ⟨2025, 1, 1, 0, 0, 1, 0⟩ ⟨2025, 1, 1, 0, 0, 2, 0⟩ (by decide) (by decide)).mp h
  exact absurd hiff (by decide)

end Osint